import Mathlib

/-!
Verification development for the teacher-assistant repository's core:
the document context-caching subsystem (`src/tools/context_cache.py`,
`src/tools/datastore_upload.py`) and the structured-output validation
subsystem (`src/schemas/lesson_plan.py`).

The Python code is shallowly embedded: pure logic becomes Lean functions,
the Google Cloud Storage side effects become explicit state passing over a
`GcsState` record (which additionally records the trace of `blob.exists()`
and upload network calls so that "no network call" properties are
statable), and the external managed-context / document-service
collaborators become function parameters, since their implementations live
outside this repository.  Fallible Python code (raising exceptions)
becomes `Except`-valued Lean code whose error type carries exactly the
values the corresponding exception message interpolates.

The SHA-256 hex digest of `_compute_file_hash` is kept as a function
parameter `hashHex : List Nat → String` of the staging code: no claim
below depends on the internals of the digest, only on it being a function
of the file content alone.
-/

namespace ContextCache

/-- A local file as seen through the `pathlib.Path` interface used by the
code: `name` is `Path.name` (the basename), `suffix` is `Path.suffix`
(the extension including the leading dot, `""` if none), `content` is the
byte content read when hashing or uploading, and `onDisk` is what
`Path.exists()` returns. -/
structure FileRef where
  name : String
  suffix : String
  content : List Nat
  onDisk : Bool
deriving DecidableEq, Repr

/-- `pathlib.Path.stem`: the final path component without its last
suffix (under the `FileRef` convention that `suffix` is the extension of
`name`). -/
def FileRef.stem (f : FileRef) : String :=
  f.name.dropRight f.suffix.length

/-- The Google Cloud Storage bucket state, together with the trace of
network calls made against it: `stored` is the set of blob keys present
remotely, `existsTrace` records each `blob.exists()` call and `putTrace`
each `blob.upload_from_filename` call (both are network calls). -/
structure GcsState where
  stored : List String
  existsTrace : List String
  putTrace : List String
deriving DecidableEq, Repr

/-- `src/config/settings.py` `Settings`, restricted to the fields the
caching code reads. -/
structure Settings where
  google_cloud_project : String
  google_cloud_region : String
  specialist_model : String
deriving DecidableEq, Repr

/-- `SUPPORTED_EXTENSIONS` of `src/tools/context_cache.py` (line 22). -/
def SUPPORTED_EXTENSIONS : List String :=
  [".pdf", ".pptx", ".docx", ".txt", ".md"]

/-- `DEFAULT_CACHE_TTL = timedelta(hours=1)`, modelled in seconds. -/
def DEFAULT_CACHE_TTL : Int := 3600

/-- Structured rendering of the `ContextCacheError` exceptions of
`src/tools/context_cache.py`, each constructor carrying exactly the
values its message interpolates.  `listIndexError` stands for the Python
`IndexError` raised by `files[0]` on an empty list, `remote` for an
exception coming from an external collaborator, and the three `…Failed`
constructors for the blanket `except Exception` re-wrappings performed by
`upload_files_to_gcs`, `create_context_cache` and `delete_cache`. -/
inductive CtxErr where
  | fileNotFound (path : String)
  | unsupportedFileType (suffix : String)
  | listIndexError
  | remote (msg : String)
  | gcsUploadFailed (inner : CtxErr)
  | cacheCreationFailed (inner : CtxErr)
  | cacheDeletionFailed (inner : CtxErr)
deriving DecidableEq, Repr

/-- Python's `str.lower()` as applied to file extensions (ASCII),
defined by per-character lowering so that it evaluates inside the
kernel. -/
def strLower (s : String) : String :=
  String.mk (s.data.map Char.toLower)

/-- The blob key composed at line 88 of `context_cache.py`:
`f"lesson-materials/{file_hash}/{file_path.name}"`. -/
def blobNameFor (hashHex : List Nat → String) (f : FileRef) : String :=
  "lesson-materials/" ++ hashHex f.content ++ "/" ++ f.name

/-- The URI composed at line 98 of `context_cache.py`:
`f"gs://{bucket_name}/{blob_name}"`. -/
def gcsUriFor (bucketName blobName : String) : String :=
  "gs://" ++ bucketName ++ "/" ++ blobName

/-- The per-file loop of `upload_files_to_gcs` (lines 75-99): local
existence check, extension allow-list check, hash, blob-key composition,
`blob.exists()` network check, upload only when absent, URI recording.
The state is returned also on error, since uploads already made persist
remotely (the remote side is append-only). -/
def uploadLoop (hashHex : List Nat → String) (bucketName : String) :
    List FileRef → GcsState → Except CtxErr (List String) × GcsState
  | [], st => (Except.ok [], st)
  | f :: rest, st =>
    if f.onDisk = false then
      (Except.error (CtxErr.fileNotFound f.name), st)
    else if strLower f.suffix ∉ SUPPORTED_EXTENSIONS then
      (Except.error (CtxErr.unsupportedFileType f.suffix), st)
    else
      let bn := blobNameFor hashHex f
      let st1 : GcsState := { st with existsTrace := st.existsTrace ++ [bn] }
      let st2 : GcsState :=
        if bn ∈ st1.stored then st1
        else { st1 with stored := st1.stored ++ [bn], putTrace := st1.putTrace ++ [bn] }
      match uploadLoop hashHex bucketName rest st2 with
      | (Except.ok uris, st3) => (Except.ok (gcsUriFor bucketName bn :: uris), st3)
      | (Except.error e, st3) => (Except.error e, st3)

/-- `upload_files_to_gcs` (lines 51-106): runs the per-file loop and
re-wraps any raised error as `ContextCacheError(f"GCS upload failed: {e}")`
via the function-wide `except Exception` handler. -/
def upload_files_to_gcs (hashHex : List Nat → String) (files : List FileRef)
    (settings : Settings) (bucketName : String) (st : GcsState) :
    Except CtxErr (List String) × GcsState :=
  match uploadLoop hashHex bucketName files st with
  | (Except.ok uris, st1) => (Except.ok uris, st1)
  | (Except.error e, st1) => (Except.error (CtxErr.gcsUploadFailed e), st1)

/-- The hard-coded default system instruction of `create_context_cache`
(lines 152-157). -/
def defaultInstruction : String :=
  "You are analyzing course materials including lecture slides, " ++
  "textbooks, and curriculum documents. Use these documents to " ++
  "generate detailed, accurate lesson plans that align with the " ++
  "content and learning objectives presented in the materials."

/-- The argument record handed to the external
`caching.CachedContent.create` collaborator: model name, system
instruction text, the `(uri, mime_type)` pair of each `Part.from_uri`
content, the TTL (seconds), and the display name. -/
structure CachedContentRequest where
  model_name : String
  system_instruction : String
  contents : List (String × String)
  ttl : Int
  display_name : String
deriving DecidableEq, Repr

/-- The argument-building phase of `create_context_cache` (lines
140-174): upload the files, build the `Content` list — every URI paired
with the hard-coded `mime_type="application/pdf"` (line 161) — pick the
instruction text, and evaluate `files[0].stem` for the display name
(raising `IndexError` on an empty list) before the remote create call. -/
def buildCacheRequest (hashHex : List Nat → String) (files : List FileRef)
    (settings : Settings) (system_instruction : Option String) (ttl : Int)
    (st : GcsState) : Except CtxErr CachedContentRequest × GcsState :=
  match upload_files_to_gcs hashHex files settings "teacher-assistant-uploads" st with
  | (Except.error e, st1) => (Except.error e, st1)
  | (Except.ok uris, st1) =>
    let contents := uris.map (fun u => (u, "application/pdf"))
    let instruction_text := system_instruction.getD defaultInstruction
    match files with
    | [] => (Except.error CtxErr.listIndexError, st1)
    | f0 :: _ =>
      (Except.ok
        { model_name := settings.specialist_model
          system_instruction := instruction_text
          contents := contents
          ttl := ttl
          display_name := "lesson-materials-" ++ f0.stem }, st1)

/-- `create_context_cache` (lines 109-187): build the request (uploading
first — no TTL or emptiness validation appears anywhere), call the
external `caching.CachedContent.create` collaborator `cacheCreate`, and
re-wrap any raised error as
`ContextCacheError(f"Cache creation failed: {e}")`. -/
def create_context_cache (hashHex : List Nat → String)
    (cacheCreate : CachedContentRequest → Except String String)
    (files : List FileRef) (settings : Settings)
    (system_instruction : Option String) (ttl : Int) (st : GcsState) :
    Except CtxErr String × GcsState :=
  match buildCacheRequest hashHex files settings system_instruction ttl st with
  | (Except.error e, st1) => (Except.error (CtxErr.cacheCreationFailed e), st1)
  | (Except.ok req, st1) =>
    match cacheCreate req with
    | Except.ok name => (Except.ok name, st1)
    | Except.error msg =>
      (Except.error (CtxErr.cacheCreationFailed (CtxErr.remote msg)), st1)

/-- `delete_cache` (lines 220-240): forward the deletion to the external
managed-context collaborator `remoteDelete` (state-passing, since it
mutates the remote handle set) and re-wrap any raised error as
`ContextCacheError(f"Cache deletion failed: {e}")`.  The code adds no
handling of its own around the collaborator call. -/
def delete_cache {σ : Type} (remoteDelete : σ → String → Except String Unit × σ)
    (st : σ) (cache_name : String) : Except CtxErr Unit × σ :=
  match remoteDelete st cache_name with
  | (Except.ok _, st1) => (Except.ok (), st1)
  | (Except.error e, st1) => (Except.error (CtxErr.cacheDeletionFailed (CtxErr.remote e)), st1)

/-- Modelled from the spec: the managed-context collaborator's
`delete(handle_id) -> void (idempotent)` boundary contract (spec section 6).
The collaborator itself is the Vertex AI SDK, external to this
repository; per the boundary specification, deleting removes the handle
when live and deleting an already-deleted or expired handle is a no-op
success. -/
def mcDelete (live : List String) (handle : String) : Except String Unit × List String :=
  (Except.ok (), live.erase handle)

end ContextCache

namespace DatastoreUpload

open ContextCache (FileRef GcsState Settings gcsUriFor strLower)

/-- `SUPPORTED_EXTENSIONS` of `src/tools/datastore_upload.py`
(lines 19-26): the search-indexing sink additionally accepts `.html`. -/
def SUPPORTED_EXTENSIONS : List String :=
  [".pdf", ".pptx", ".docx", ".txt", ".md", ".html"]

/-- The `mime_types` table of `_get_mime_type` (lines 179-189). -/
def mime_types : List (String × String) :=
  [(".pdf", "application/pdf"),
   (".pptx", "application/vnd.openxmlformats-officedocument.presentationml.presentation"),
   (".docx", "application/vnd.openxmlformats-officedocument.wordprocessingml.document"),
   (".txt", "text/plain"),
   (".md", "text/markdown"),
   (".html", "text/html")]

/-- `_get_mime_type` (lines 179-189): table lookup on the lowered
suffix with fallback `application/octet-stream`. -/
def getMimeType (f : FileRef) : String :=
  (mime_types.lookup (strLower f.suffix)).getD "application/octet-stream"

/-- Structured rendering of `DatastoreUploadError`. -/
inductive DsErr where
  | uploadFailed (fileName : String) (msg : String)
  | datastoreUploadFailed (msg : String)
deriving DecidableEq, Repr

/-- `upload_file_to_gcs` of `datastore_upload.py` (lines 35-70): blob key
`f"curriculum/{file_path.name}"`, existence check, upload only when
absent.  Remote transport failures are not modelled (no claim concerns
them), so the function is total. -/
def upload_file_to_gcs (f : FileRef) (bucketName : String) (st : GcsState) :
    String × GcsState :=
  let bn := "curriculum/" ++ f.name
  let st1 : GcsState := { st with existsTrace := st.existsTrace ++ [bn] }
  let st2 : GcsState :=
    if bn ∈ st1.stored then st1
    else { st1 with stored := st1.stored ++ [bn], putTrace := st1.putTrace ++ [bn] }
  (gcsUriFor bucketName bn, st2)

/-- The `discoveryengine.Document` handed to the external
`create_document` collaborator (lines 130-148). -/
structure DsDocument where
  id : String
  uri : String
  mime_type : String
  title : String
  file_type : String
deriving DecidableEq, Repr

/-- Outcome of the external `client.create_document` call as the code
discriminates it (lines 150-164): success with a document name, an
exception whose text contains "already exists" (case-insensitively), or
any other exception. -/
inductive DsRemoteResult where
  | ok (name : String)
  | alreadyExists (msg : String)
  | failed (msg : String)
deriving DecidableEq, Repr

/-- The per-file loop of `upload_to_datastore` (lines 108-164): a file
that is missing locally or has an extension outside the allow-list is
logged as a warning and skipped with `continue` — it is not an error.
Accepted files are uploaded to GCS, then imported; an "already exists"
failure records the document id, any other failure aborts the batch. -/
def datastoreLoop (createDocument : DsDocument → DsRemoteResult) :
    List FileRef → GcsState → Except DsErr (List (String × String)) × GcsState
  | [], st => (Except.ok [], st)
  | f :: rest, st =>
    if f.onDisk = false then
      datastoreLoop createDocument rest st
    else if strLower f.suffix ∉ SUPPORTED_EXTENSIONS then
      datastoreLoop createDocument rest st
    else
      let (uri, st1) := upload_file_to_gcs f "teacher-assistant-uploads" st
      let doc_id := f.stem
      let doc : DsDocument :=
        { id := doc_id, uri := uri, mime_type := getMimeType f
          title := f.name, file_type := f.suffix }
      match createDocument doc with
      | DsRemoteResult.ok docName =>
        match datastoreLoop createDocument rest st1 with
        | (Except.ok docs, st2) => (Except.ok ((f.name, docName) :: docs), st2)
        | (Except.error e, st2) => (Except.error e, st2)
      | DsRemoteResult.alreadyExists _ =>
        match datastoreLoop createDocument rest st1 with
        | (Except.ok docs, st2) => (Except.ok ((f.name, doc_id) :: docs), st2)
        | (Except.error e, st2) => (Except.error e, st2)
      | DsRemoteResult.failed msg => (Except.error (DsErr.datastoreUploadFailed msg), st1)

/-- `upload_to_datastore` (lines 73-176): run the loop; the function-wide
`except Exception` handler re-wraps an escaped error as
`DatastoreUploadError(f"Upload failed: {e}")`, modelled by keeping the
`DsErr` as is (the wrap adds only message text). -/
def upload_to_datastore (createDocument : DsDocument → DsRemoteResult)
    (files : List FileRef) (st : GcsState) :
    Except DsErr (List (String × String)) × GcsState :=
  datastoreLoop createDocument files st

end DatastoreUpload

namespace LessonPlan

/-- `Difficulty` enum of `src/schemas/lesson_plan.py`. -/
inductive Difficulty where
  | low
  | medium
  | hard
deriving DecidableEq, Repr

/-- `TeachingApproach` enum. -/
inductive TeachingApproach where
  | inquiry_based
  | direct
  | project_based
  | mixed
deriving DecidableEq, Repr

/-- `AssessmentType` enum. -/
inductive AssessmentType where
  | formative
  | summative
  | diagnostic
deriving DecidableEq, Repr

/-- `ResourceType` enum. -/
inductive ResourceType where
  | video
  | article
  | interactive
  | dataset
  | tool
deriving DecidableEq, Repr

/-- Structured rendering of the pydantic `ValidationError` items raised
by the schemas, each constructor carrying the field location and the
values the corresponding message interpolates:
`tooSmall`/`tooLarge` are the `ge`/`le` constraint violations,
`strTooShort` the `min_length` violation on a string field,
`listTooShort` the `min_length` violation on a list field,
`timelineEmpty` the `ValueError("Timeline cannot be empty")`,
`timelineGap` the `ValueError(f"Timeline gap detected: segment ends at
{current_end} but next starts at {next_start}")`, and
`lectureCountMismatch` the `ValueError(f"Expected {request.total_periods}
lectures, got {len(lectures)}")`. -/
inductive PlanErr where
  | tooSmall (field : String) (limit : Int) (got : Int)
  | tooLarge (field : String) (limit : Int) (got : Int)
  | strTooShort (field : String) (minLen : Nat) (got : String)
  | listTooShort (field : String) (minLen : Nat) (gotLen : Nat)
  | timelineEmpty
  | timelineGap (currentEnd : Int) (nextStart : Int)
  | lectureCountMismatch (expected : Int) (actual : Nat)
deriving DecidableEq, Repr

/-- `LessonPlanRequest` (lines 59-173), restricted to typed fields;
`resource_files` paths are kept as strings. -/
structure LessonPlanRequest where
  topic : String
  grade : String
  lecture_duration : Int
  total_periods : Int
  difficulty : Difficulty
  teaching_approach : TeachingApproach
  prior_knowledge : String
  lab_required : Bool
  programming_language : Option String
  resource_files : List String
  cached_content_name : Option String
  additional_context : Option String
deriving DecidableEq, Repr

/-- Construction of a `LessonPlanRequest`: pydantic validates every field
against its declared constraints (`topic` `min_length=3`,
`lecture_duration` `ge=30, le=180`, `total_periods` `ge=1, le=30`), and
collects all violations in field order rather than stopping at the first.
The `validate_programming_language_for_labs` validator returns its input
unchanged (lines 147-154) and adds no constraint. -/
def mkLessonPlanRequest (topic grade : String) (lecture_duration total_periods : Int)
    (difficulty : Difficulty) (teaching_approach : TeachingApproach)
    (prior_knowledge : String) (lab_required : Bool)
    (programming_language : Option String) (resource_files : List String)
    (cached_content_name : Option String) (additional_context : Option String) :
    Except (List PlanErr) LessonPlanRequest :=
  let errs : List PlanErr :=
    (if topic.length < 3 then [PlanErr.strTooShort "topic" 3 topic] else [])
    ++ (if lecture_duration < 30 then
          [PlanErr.tooSmall "lecture_duration" 30 lecture_duration]
        else if 180 < lecture_duration then
          [PlanErr.tooLarge "lecture_duration" 180 lecture_duration]
        else [])
    ++ (if total_periods < 1 then
          [PlanErr.tooSmall "total_periods" 1 total_periods]
        else if 30 < total_periods then
          [PlanErr.tooLarge "total_periods" 30 total_periods]
        else [])
  match errs with
  | [] => Except.ok
      { topic := topic, grade := grade, lecture_duration := lecture_duration
        total_periods := total_periods, difficulty := difficulty
        teaching_approach := teaching_approach, prior_knowledge := prior_knowledge
        lab_required := lab_required, programming_language := programming_language
        resource_files := resource_files, cached_content_name := cached_content_name
        additional_context := additional_context }
  | es => Except.error es

/-- `TimelineSegment` (lines 181-195).  Field constraints
(`start_minute ≥ 0`, `duration ≥ 1`) are pydantic `ge` checks at parse
time; the fields are `Int` so that arbitrary received values are
representable. -/
structure TimelineSegment where
  start_minute : Int
  duration : Int
  activity : String
  instructor_notes : Option String
deriving DecidableEq, Repr

/-- The `end_minute` property (lines 192-195). -/
def TimelineSegment.end_minute (s : TimelineSegment) : Int :=
  s.start_minute + s.duration

/-- `Activity` (lines 198-215). -/
structure Activity where
  title : String
  description : String
  duration : Int
  materials_needed : List String
  instructions : List String
  learning_outcomes : List String
deriving DecidableEq, Repr

/-- `Assessment` (lines 218-232). -/
structure Assessment where
  type : AssessmentType
  title : String
  description : String
  questions_or_tasks : List String
  rubric : Option String
  estimated_time : Int
deriving DecidableEq, Repr

/-- `Differentiation` (lines 235-249). -/
structure Differentiation where
  support_strategies : List String
  challenge_strategies : List String
  accommodations : List String
deriving DecidableEq, Repr

/-- `Homework` (lines 252-266). -/
structure Homework where
  title : String
  description : String
  tasks : List String
  estimated_time : Int
  due_date_offset : Int
  resources_needed : List String
deriving DecidableEq, Repr

/-- `ResourceLink` (lines 269-279); the `HttpUrl` is kept as a string. -/
structure ResourceLink where
  title : String
  url : String
  type : ResourceType
  description : String
  recommended_for : List Int
deriving DecidableEq, Repr

/-- `sorted(segments, key=lambda x: x.start_minute)` (line 338).  Python's
`sorted` is a stable sort; `List.insertionSort` with the non-strict key
order is stable in the same sense, so the two agree on every input. -/
def sortByStart (segs : List TimelineSegment) : List TimelineSegment :=
  List.insertionSort (fun a b => a.start_minute ≤ b.start_minute) segs

/-- The continuity loop of `validate_timeline_continuity` (lines
341-348): walk adjacent pairs, raising at the first pair whose earlier
`end_minute` differs from the later `start_minute`. -/
def continuityCheck : List TimelineSegment → Except PlanErr Unit
  | [] => Except.ok ()
  | [_] => Except.ok ()
  | a :: b :: rest =>
    if a.end_minute ≠ b.start_minute then
      Except.error (PlanErr.timelineGap a.end_minute b.start_minute)
    else
      continuityCheck (b :: rest)

/-- `validate_timeline_continuity` (lines 330-350): an empty list raises
`ValueError("Timeline cannot be empty")`; otherwise the segments are
sorted by `start_minute`, adjacent pairs are checked for exact
continuity, and the SORTED list is what the validator returns (and hence
what pydantic stores in `detailed_timeline`). -/
def validate_timeline_continuity (segments : List TimelineSegment) :
    Except PlanErr (List TimelineSegment) :=
  if segments.isEmpty then Except.error PlanErr.timelineEmpty
  else
    let sorted_segments := sortByStart segments
    match continuityCheck sorted_segments with
    | Except.ok _ => Except.ok sorted_segments
    | Except.error e => Except.error e

/-- `LecturePeriod` (lines 287-350). -/
structure LecturePeriod where
  period_number : Int
  title : String
  learning_objectives : List String
  materials : List String
  detailed_timeline : List TimelineSegment
  detailed_activities : List Activity
  assessment : Assessment
  differentiation : Differentiation
  homework : Homework
deriving DecidableEq, Repr

/-- Construction of a `LecturePeriod`: pydantic validates each field
against its declared constraints in declaration order (`period_number`
`ge=1`, `learning_objectives` `min_length=2`, the
`validate_timeline_continuity` field validator on `detailed_timeline`,
`detailed_activities` `min_length=1`), collecting all field errors; the
value stored in `detailed_timeline` is the validator's return value,
i.e. the sorted list. -/
def mkLecturePeriod (period_number : Int) (title : String)
    (learning_objectives materials : List String)
    (detailed_timeline : List TimelineSegment) (detailed_activities : List Activity)
    (assessment : Assessment) (differentiation : Differentiation)
    (homework : Homework) : Except (List PlanErr) LecturePeriod :=
  let pnErrs : List PlanErr :=
    if period_number < 1 then [PlanErr.tooSmall "period_number" 1 period_number] else []
  let objErrs : List PlanErr :=
    if learning_objectives.length < 2 then
      [PlanErr.listTooShort "learning_objectives" 2 learning_objectives.length] else []
  let tlResult := validate_timeline_continuity detailed_timeline
  let tlErrs : List PlanErr :=
    match tlResult with
    | Except.ok _ => []
    | Except.error e => [e]
  let actErrs : List PlanErr :=
    if detailed_activities.length < 1 then
      [PlanErr.listTooShort "detailed_activities" 1 detailed_activities.length] else []
  match pnErrs ++ objErrs ++ tlErrs ++ actErrs, tlResult with
  | [], Except.ok sorted_segments => Except.ok
      { period_number := period_number, title := title
        learning_objectives := learning_objectives, materials := materials
        detailed_timeline := sorted_segments
        detailed_activities := detailed_activities, assessment := assessment
        differentiation := differentiation, homework := homework }
  | [], Except.error e => Except.error [e]
  | es, _ => Except.error es

/-- `CompleteLessonPlan` (lines 358-430); `generated_at` is omitted (a
wall-clock default irrelevant to every claim). -/
structure CompleteLessonPlan where
  course_title : String
  course_description : String
  request : LessonPlanRequest
  lectures : List LecturePeriod
  resource_links : List ResourceLink
  progression_map : String
  prerequisites_summary : String
  learning_outcomes_summary : List String
deriving DecidableEq, Repr

/-- Construction of a `CompleteLessonPlan` from an already-validated
`LessonPlanRequest`: pydantic first enforces the `lectures`
`min_length=1` field constraint; only when that passes does the
`validate_lecture_count` field validator (lines 409-418) run, raising
`ValueError(f"Expected {request.total_periods} lectures, got
{len(lectures)}")` on a count mismatch. -/
def mkCompleteLessonPlan (course_title course_description : String)
    (request : LessonPlanRequest) (lectures : List LecturePeriod)
    (resource_links : List ResourceLink)
    (progression_map prerequisites_summary : String)
    (learning_outcomes_summary : List String) :
    Except (List PlanErr) CompleteLessonPlan :=
  let lecErrs : List PlanErr :=
    if lectures.length < 1 then [PlanErr.listTooShort "lectures" 1 lectures.length]
    else if (lectures.length : Int) ≠ request.total_periods then
      [PlanErr.lectureCountMismatch request.total_periods lectures.length]
    else []
  match lecErrs with
  | [] => Except.ok
      { course_title := course_title, course_description := course_description
        request := request, lectures := lectures, resource_links := resource_links
        progression_map := progression_map
        prerequisites_summary := prerequisites_summary
        learning_outcomes_summary := learning_outcomes_summary }
  | es => Except.error es

/-- `ClarificationQuestion` (lines 438-450). -/
structure ClarificationQuestion where
  question : String
  field_name : String
  suggestions : List String
  required : Bool
deriving DecidableEq, Repr

/-- `ClarificationRequest` (lines 453-465). -/
structure ClarificationRequest where
  message : String
  questions : List ClarificationQuestion
deriving DecidableEq, Repr

namespace TimelineSegment

instance : IsTotal TimelineSegment (fun a b => a.start_minute ≤ b.start_minute) :=
  ⟨fun a b => Int.le_total a.start_minute b.start_minute⟩

instance : IsTrans TimelineSegment (fun a b => a.start_minute ≤ b.start_minute) :=
  ⟨fun _ _ _ h1 h2 => le_trans h1 h2⟩

end TimelineSegment

/-- The continuity loop accepts exactly the lists whose adjacent pairs
are exactly continuous. -/
theorem continuityCheck_ok_iff (l : List TimelineSegment) :
    continuityCheck l = Except.ok () ↔
      List.Chain' (fun a b => a.end_minute = b.start_minute) l := by
  induction l with
  | nil => simp [continuityCheck]
  | cons a tail ih =>
    cases tail with
    | nil => simp [continuityCheck]
    | cons b rest =>
      rw [List.chain'_cons]
      by_cases h : a.end_minute = b.start_minute
      · simpa [continuityCheck, h] using ih
      · simp [continuityCheck, h]

/-- When the continuity loop reports a gap, the two reported minutes are
the `end_minute`/`start_minute` of an adjacent pair of the list, and they
differ. -/
theorem continuityCheck_error_mem (l : List TimelineSegment) (e s : Int)
    (hl : continuityCheck l = Except.error (PlanErr.timelineGap e s)) :
    e ≠ s ∧ (e, s) ∈ List.zipWith (fun a b => (a.end_minute, b.start_minute)) l l.tail := by
  induction l with
  | nil => simp [continuityCheck] at hl
  | cons a tail ih =>
    cases tail with
    | nil => simp [continuityCheck] at hl
    | cons b rest =>
      by_cases h : a.end_minute = b.start_minute
      · simp only [continuityCheck, h, ne_eq, not_true_eq_false, if_neg, ite_false,
          not_false_eq_true, if_false] at hl
        have hl2 : continuityCheck (b :: rest) = Except.error (PlanErr.timelineGap e s) := by
          simpa [continuityCheck, h] using hl
        rcases ih hl2 with ⟨hne, hmem⟩
        exact ⟨hne, List.mem_cons_of_mem _ hmem⟩
      · have hl2 : Except.error (α := Unit) (PlanErr.timelineGap a.end_minute b.start_minute)
            = Except.error (PlanErr.timelineGap e s) := by
          simpa [continuityCheck, h] using hl
        have he : a.end_minute = e ∧ b.start_minute = s := by
          have := hl2
          simp only [Except.error.injEq, PlanErr.timelineGap.injEq] at this
          exact this
        rcases he with ⟨he1, he2⟩
        subst he1
        subst he2
        exact ⟨h, List.mem_cons_self _ _⟩

/-- A successful run of the timeline validator returns exactly the sorted
segment list. -/
theorem validate_ok_eq_sort (segs out : List TimelineSegment)
    (h : validate_timeline_continuity segs = Except.ok out) :
    out = sortByStart segs := by
  unfold validate_timeline_continuity at h
  by_cases hemp : segs.isEmpty
  · simp [hemp] at h
  · simp only [hemp, Bool.false_eq_true, if_false, ite_false] at h
    cases hcc : continuityCheck (sortByStart segs) with
    | ok u => cases u; rw [hcc] at h; cases h; rfl
    | error e => rw [hcc] at h; cases h

/-- The timeline validator accepts exactly the nonempty lists whose
sorted form is exactly continuous. -/
theorem validate_isOk_iff (segs : List TimelineSegment) :
    (∃ out, validate_timeline_continuity segs = Except.ok out) ↔
      segs ≠ [] ∧ List.Chain' (fun a b => a.end_minute = b.start_minute) (sortByStart segs) := by
  cases segs with
  | nil => simp [validate_timeline_continuity]
  | cons hd tl =>
    unfold validate_timeline_continuity
    simp only [List.isEmpty_cons, Bool.false_eq_true, if_false, ite_false]
    cases hcc : continuityCheck (sortByStart (hd :: tl)) with
    | ok u =>
      cases u
      simp [hcc, (continuityCheck_ok_iff _).mp hcc]
    | error e =>
      have hch : ¬ List.Chain' (fun a b => a.end_minute = b.start_minute)
          (sortByStart (hd :: tl)) := by
        intro hch
        have hok := (continuityCheck_ok_iff (sortByStart (hd :: tl))).mpr hch
        rw [hcc] at hok
        cases hok
      simp [hcc, hch]

end LessonPlan

open ContextCache LessonPlan

/-- Equality of `Except` results is decidable when both components are;
used to evaluate the embedded functions at concrete inputs. -/
instance {ε α : Type} [DecidableEq ε] [DecidableEq α] : DecidableEq (Except ε α) := fun x y =>
  match x, y with
  | Except.ok a, Except.ok b =>
    if h : a = b then isTrue (by rw [h]) else isFalse (fun hc => by cases hc; exact h rfl)
  | Except.error e, Except.error f =>
    if h : e = f then isTrue (by rw [h]) else isFalse (fun hc => by cases hc; exact h rfl)
  | Except.ok _, Except.error _ => isFalse (fun hc => by cases hc)
  | Except.error _, Except.ok _ => isFalse (fun hc => by cases hc)

/-- Concrete adjacent lecture segments used by witnesses: `segA` covers
minutes 0-10, `segB` minutes 10-45. -/
def segA : TimelineSegment :=
  { start_minute := 0, duration := 10, activity := "intro", instructor_notes := none }

/-- See `segA`. -/
def segB : TimelineSegment :=
  { start_minute := 10, duration := 35, activity := "main", instructor_notes := none }

/-- Concrete activity used by witnesses. -/
def demoActivity : Activity :=
  { title := "worksheet", description := "practice", duration := 45
    materials_needed := [], instructions := ["solve"], learning_outcomes := [] }

/-- Concrete assessment used by witnesses. -/
def demoAssessment : Assessment :=
  { type := AssessmentType.formative, title := "quiz", description := "check"
    questions_or_tasks := ["q1"], rubric := none, estimated_time := 10 }

/-- Concrete differentiation block used by witnesses. -/
def demoDifferentiation : Differentiation :=
  { support_strategies := ["pair work"], challenge_strategies := ["extension"]
    accommodations := [] }

/-- Concrete homework block used by witnesses. -/
def demoHomework : Homework :=
  { title := "reading", description := "read ch. 1", tasks := ["read"]
    estimated_time := 30, due_date_offset := 7, resources_needed := [] }

/-- Concrete in-bounds lesson-plan request used by witnesses. -/
def demoRequest : LessonPlanRequest :=
  { topic := "Algebra", grade := "9th Grade", lecture_duration := 45, total_periods := 1
    difficulty := Difficulty.medium, teaching_approach := TeachingApproach.direct
    prior_knowledge := "none", lab_required := false, programming_language := none
    resource_files := [], cached_content_name := none, additional_context := none }

/-- The lecture period obtained from out-of-order input `[segB, segA]`:
the stored timeline is the sorted `[segA, segB]`. -/
def demoPeriod : LecturePeriod :=
  { period_number := 1, title := "Lecture 1", learning_objectives := ["o1", "o2"]
    materials := [], detailed_timeline := [segA, segB]
    detailed_activities := [demoActivity], assessment := demoAssessment
    differentiation := demoDifferentiation, homework := demoHomework }

/-- Concrete digest function used to instantiate the `hashHex` parameter
in witnesses and counterexamples; the claims about staging hold for every
digest function, so any computable one exhibits them. -/
def demoHash (c : List Nat) : String :=
  String.intercalate "-" (c.map Nat.repr)

/-- Concrete settings used by witnesses. -/
def demoSettings : Settings :=
  { google_cloud_project := "proj", google_cloud_region := "us-central1"
    specialist_model := "gemini-2.0-flash-exp" }

/-- A PDF file with content `[1, 2]` under the name `a.pdf`. -/
def demoPdfA : FileRef :=
  { name := "a.pdf", suffix := ".pdf", content := [1, 2], onDisk := true }

/-- A PDF file with the same content `[1, 2]` under the name `b.pdf`. -/
def demoPdfB : FileRef :=
  { name := "b.pdf", suffix := ".pdf", content := [1, 2], onDisk := true }

/-- A plain-text file used to exercise the MIME labelling. -/
def demoTxt : FileRef :=
  { name := "notes.txt", suffix := ".txt", content := [7], onDisk := true }

/-- A file whose extension is outside every allow-list. -/
def demoZip : FileRef :=
  { name := "a.zip", suffix := ".zip", content := [9], onDisk := true }

/-- Concrete managed-context collaborator used by witnesses: it succeeds
and echoes the TTL it received, making the TTL pass-through observable. -/
def demoCreate : CachedContentRequest → Except String String :=
  fun r => Except.ok ("created-ttl-" ++ Int.repr r.ttl)

/-- Concrete document-service collaborator used by witnesses. -/
def demoCreateDoc : DatastoreUpload.DsDocument → DatastoreUpload.DsRemoteResult :=
  fun d => DatastoreUpload.DsRemoteResult.ok ("docs/" ++ d.id)

/-- C2: per `LecturePeriod`, validation sorts the segments by
`start_minute` and accepts exactly when every adjacent pair of the sorted
list satisfies `end_minute = start_minute` of the next; an empty segment
list is itself a violation; any gap or overlap fails with a timeline-gap
error whose two reported minutes are the differing boundary minutes of an
adjacent sorted pair; and on any timeline violation no `LecturePeriod`
value is constructed. -/
theorem timeline_tiling (segs : List TimelineSegment) :
    validate_timeline_continuity ([] : List TimelineSegment) = Except.error PlanErr.timelineEmpty
    ∧ ((∃ out, validate_timeline_continuity segs = Except.ok out) ↔
        segs ≠ [] ∧ List.Chain' (fun a b => a.end_minute = b.start_minute) (sortByStart segs))
    ∧ (∀ e s, validate_timeline_continuity segs = Except.error (PlanErr.timelineGap e s) →
        e ≠ s ∧ (e, s) ∈ List.zipWith (fun a b => (a.end_minute, b.start_minute))
          (sortByStart segs) (sortByStart segs).tail)
    ∧ (∀ err, validate_timeline_continuity segs = Except.error err →
        ∀ pn t o m acts asm dif hw, ∃ es,
          mkLecturePeriod pn t o m segs acts asm dif hw = Except.error es ∧ err ∈ es) := by
  refine ⟨rfl, validate_isOk_iff segs, ?_, ?_⟩
  · intro e s hv
    cases segs with
    | nil => cases hv
    | cons hd tl =>
      unfold validate_timeline_continuity at hv
      simp only [List.isEmpty_cons, Bool.false_eq_true, if_false, ite_false] at hv
      cases hcc : continuityCheck (sortByStart (hd :: tl)) with
      | ok u => rw [hcc] at hv; cases hv
      | error e0 =>
        rw [hcc] at hv
        cases hv
        exact continuityCheck_error_mem _ e s hcc
  · intro err hv pn t o m acts asm dif hw
    by_cases h1 : pn < 1 <;> by_cases h2 : o.length < 2 <;> by_cases h3 : acts.length < 1 <;>
      simp [mkLecturePeriod, hv, h1, h2, h3]

/-- Witness for C2 at a concrete input: the out-of-order tiling
`[segB, segA]` is accepted. -/
theorem timeline_tiling_witness :
    ∃ out, validate_timeline_continuity [segB, segA] = Except.ok out :=
  (timeline_tiling [segB, segA]).2.1.mpr (by
    refine ⟨by simp, ?_⟩
    have h : sortByStart [segB, segA] = [segA, segB] := by rfl
    rw [h]
    exact List.chain'_cons.mpr ⟨by decide, List.chain'_singleton _⟩)

/-- C9: every successfully constructed `LecturePeriod` stores, as
`detailed_timeline`, the caller's segment list sorted by `start_minute`
(stably): the stored list is sorted nondecreasingly and is a permutation
of the input, so out-of-order input is silently reordered. -/
theorem constructed_timeline_sorted (pn : Int) (t : String) (o m : List String)
    (segs : List TimelineSegment) (acts : List Activity) (asm : Assessment)
    (dif : Differentiation) (hw : Homework) (lp : LecturePeriod)
    (hok : mkLecturePeriod pn t o m segs acts asm dif hw = Except.ok lp) :
    lp.detailed_timeline = sortByStart segs
    ∧ List.Sorted (fun a b => a.start_minute ≤ b.start_minute) lp.detailed_timeline
    ∧ lp.detailed_timeline.Perm segs := by
  cases hv : validate_timeline_continuity segs with
  | error e =>
    exfalso
    by_cases h1 : pn < 1 <;> by_cases h2 : o.length < 2 <;> by_cases h3 : acts.length < 1 <;>
      simp [mkLecturePeriod, hv, h1, h2, h3] at hok
  | ok out =>
    have hsort : out = sortByStart segs := validate_ok_eq_sort segs out hv
    by_cases h1 : pn < 1 <;> by_cases h2 : o.length < 2 <;> by_cases h3 : acts.length < 1 <;>
      simp [mkLecturePeriod, hv, h1, h2, h3] at hok
    subst hok
    subst hsort
    refine ⟨rfl, List.sorted_insertionSort _ _, List.perm_insertionSort _ _⟩

/-- Counterexample for C3 as stated: with `request.total_periods = 1` and
zero lectures — a count mismatch — construction fails with the `lectures`
min-length violation, not with the count-mismatch error. -/
theorem lecture_count_empty_mismatch_cex :
    mkCompleteLessonPlan "Algebra I" "Intro course" demoRequest [] [] "map" "none" []
      = Except.error [PlanErr.listTooShort "lectures" 1 0]
    ∧ PlanErr.lectureCountMismatch demoRequest.total_periods 0
        ∉ [PlanErr.listTooShort "lectures" 1 0] :=
  ⟨rfl, by decide⟩

/-- C3 (amended): once the full plan with its originating validated
request is assembled, construction succeeds exactly when
`len(lectures) = request.total_periods`; a mismatch with at least one
lecture fails with the count-mismatch error naming expected and actual
counts, while a mismatch with zero lectures fails with the `lectures`
min-length violation instead. -/
theorem lecture_count_match (ct cd : String) (request : LessonPlanRequest)
    (hreq : 1 ≤ request.total_periods) (lectures : List LecturePeriod)
    (rl : List ResourceLink) (pm ps : String) (los : List String) :
    ((∃ plan, mkCompleteLessonPlan ct cd request lectures rl pm ps los = Except.ok plan) ↔
      (lectures.length : Int) = request.total_periods)
    ∧ (lectures ≠ [] → (lectures.length : Int) ≠ request.total_periods →
        mkCompleteLessonPlan ct cd request lectures rl pm ps los
          = Except.error [PlanErr.lectureCountMismatch request.total_periods lectures.length])
    ∧ (lectures = [] →
        mkCompleteLessonPlan ct cd request lectures rl pm ps los
          = Except.error [PlanErr.listTooShort "lectures" 1 0]) := by
  refine ⟨?_, ?_, ?_⟩
  · cases lectures with
    | nil =>
      constructor
      · rintro ⟨plan, hplan⟩
        simp [mkCompleteLessonPlan] at hplan
      · intro h
        simp only [List.length_nil, Nat.cast_zero] at h
        omega
    | cons L ls =>
      by_cases h2 : (((L :: ls).length : Nat) : Int) = request.total_periods
      · have h2a : (ls.length : Int) + 1 = request.total_periods := by simpa using h2
        constructor
        · intro _
          exact h2
        · intro _
          exact ⟨{ course_title := ct, course_description := cd, request := request
                   lectures := L :: ls, resource_links := rl, progression_map := pm
                   prerequisites_summary := ps, learning_outcomes_summary := los },
            by simp [mkCompleteLessonPlan, h2a, Nat.lt_one_iff]⟩
      · have h2a : ¬ ((ls.length : Int) + 1 = request.total_periods) := by simpa using h2
        constructor
        · rintro ⟨plan, hplan⟩
          simp [mkCompleteLessonPlan, h2a, Nat.lt_one_iff] at hplan
        · intro h
          exact absurd h h2
  · intro hne h2
    cases lectures with
    | nil => exact absurd rfl hne
    | cons L ls =>
      have h2a : ¬ ((ls.length : Int) + 1 = request.total_periods) := by simpa using h2
      simp [mkCompleteLessonPlan, h2a, Nat.lt_one_iff]
  · intro hnil
    subst hnil
    rfl

/-- Witness for C3 at a concrete input: a one-lecture plan against a
request with `total_periods = 1` is accepted. -/
theorem lecture_count_match_witness :
    ∃ plan, mkCompleteLessonPlan "Algebra I" "Intro course" demoRequest [demoPeriod] [] "map"
        "none" [] = Except.ok plan :=
  (lecture_count_match "Algebra I" "Intro course" demoRequest (by decide) [demoPeriod] [] "map"
    "none" []).1.mpr (by decide)

/-- C8: a `LessonPlanRequest` constructs exactly when
`lecture_duration ∈ [30,180]`, `total_periods ∈ [1,30]` and the topic has
at least 3 characters; each violated bound contributes a validation error
naming the field and the received value. -/
theorem request_field_bounds (topic grade : String) (dur tp : Int) (diff : Difficulty)
    (appr : TeachingApproach) (pk : String) (lab : Bool) (pl : Option String)
    (rf : List String) (ccn ac : Option String) :
    ((∃ r, mkLessonPlanRequest topic grade dur tp diff appr pk lab pl rf ccn ac = Except.ok r) ↔
      3 ≤ topic.length ∧ 30 ≤ dur ∧ dur ≤ 180 ∧ 1 ≤ tp ∧ tp ≤ 30)
    ∧ (topic.length < 3 → ∃ es,
        mkLessonPlanRequest topic grade dur tp diff appr pk lab pl rf ccn ac = Except.error es
        ∧ PlanErr.strTooShort "topic" 3 topic ∈ es)
    ∧ (dur < 30 → ∃ es,
        mkLessonPlanRequest topic grade dur tp diff appr pk lab pl rf ccn ac = Except.error es
        ∧ PlanErr.tooSmall "lecture_duration" 30 dur ∈ es)
    ∧ (180 < dur → ∃ es,
        mkLessonPlanRequest topic grade dur tp diff appr pk lab pl rf ccn ac = Except.error es
        ∧ PlanErr.tooLarge "lecture_duration" 180 dur ∈ es)
    ∧ (tp < 1 → ∃ es,
        mkLessonPlanRequest topic grade dur tp diff appr pk lab pl rf ccn ac = Except.error es
        ∧ PlanErr.tooSmall "total_periods" 1 tp ∈ es)
    ∧ (30 < tp → ∃ es,
        mkLessonPlanRequest topic grade dur tp diff appr pk lab pl rf ccn ac = Except.error es
        ∧ PlanErr.tooLarge "total_periods" 30 tp ∈ es) := by
  by_cases h1 : topic.length < 3 <;> by_cases h2 : dur < 30 <;> by_cases h3 : 180 < dur <;>
    by_cases h4 : tp < 1 <;> by_cases h5 : 30 < tp <;>
      simp [mkLessonPlanRequest, h1, h2, h3, h4, h5] <;> omega

/-- Witness for C8 at concrete inputs: an in-bounds request is accepted,
and a 2-character topic is rejected with the error naming `topic` and the
received string. -/
theorem request_field_bounds_witness :
    (∃ r, mkLessonPlanRequest "Machine Learning" "UG3" 90 10 Difficulty.medium
        TeachingApproach.mixed "Linear algebra" false none [] none none = Except.ok r)
    ∧ (∃ es, mkLessonPlanRequest "ML" "UG3" 90 10 Difficulty.medium
        TeachingApproach.mixed "Linear algebra" false none [] none none = Except.error es
        ∧ PlanErr.strTooShort "topic" 3 "ML" ∈ es) :=
  ⟨(request_field_bounds "Machine Learning" "UG3" 90 10 Difficulty.medium TeachingApproach.mixed
      "Linear algebra" false none [] none none).1.mpr (by decide),
   (request_field_bounds "ML" "UG3" 90 10 Difficulty.medium TeachingApproach.mixed
      "Linear algebra" false none [] none none).2.1 (by decide)⟩

/-- Witness for C9 at a concrete input: out-of-order `[segB, segA]`
yields a period whose stored timeline is the sorted `[segA, segB]`, which
differs from the input order. -/
theorem constructed_timeline_sorted_witness :
    (demoPeriod.detailed_timeline = sortByStart [segB, segA]
      ∧ List.Sorted (fun a b => a.start_minute ≤ b.start_minute) demoPeriod.detailed_timeline
      ∧ demoPeriod.detailed_timeline.Perm [segB, segA])
    ∧ demoPeriod.detailed_timeline ≠ [segB, segA] :=
  ⟨constructed_timeline_sorted 1 "Lecture 1" ["o1", "o2"] [] [segB, segA] [demoActivity]
      demoAssessment demoDifferentiation demoHomework demoPeriod (by decide),
   by decide⟩

/-- Counterexample for C1 as stated: byte-identical content staged twice
under two different original filenames produces a second upload (two
entries in the put trace) and two different storage URIs, because the
blob key embeds the filename. -/
theorem stage_dedup_cross_filename_cex :
    upload_files_to_gcs demoHash [demoPdfA] demoSettings "teacher-assistant-uploads"
        { stored := [], existsTrace := [], putTrace := [] }
      = (Except.ok ["gs://teacher-assistant-uploads/lesson-materials/1-2/a.pdf"],
         { stored := ["lesson-materials/1-2/a.pdf"]
           existsTrace := ["lesson-materials/1-2/a.pdf"]
           putTrace := ["lesson-materials/1-2/a.pdf"] })
    ∧ upload_files_to_gcs demoHash [demoPdfB] demoSettings "teacher-assistant-uploads"
        { stored := ["lesson-materials/1-2/a.pdf"]
          existsTrace := ["lesson-materials/1-2/a.pdf"]
          putTrace := ["lesson-materials/1-2/a.pdf"] }
      = (Except.ok ["gs://teacher-assistant-uploads/lesson-materials/1-2/b.pdf"],
         { stored := ["lesson-materials/1-2/a.pdf", "lesson-materials/1-2/b.pdf"]
           existsTrace := ["lesson-materials/1-2/a.pdf", "lesson-materials/1-2/b.pdf"]
           putTrace := ["lesson-materials/1-2/a.pdf", "lesson-materials/1-2/b.pdf"] })
    ∧ demoPdfA.content = demoPdfB.content
    ∧ "gs://teacher-assistant-uploads/lesson-materials/1-2/a.pdf"
        ≠ "gs://teacher-assistant-uploads/lesson-materials/1-2/b.pdf" := by
  refine ⟨by decide, by decide, rfl, by decide⟩

/-- C1 (amended): staging byte-identical content twice under the SAME
original filename in the same namespace performs at most one upload
across both calls and returns the identical storage URI; the put trace
does not grow on the second call. -/
theorem stage_dedup_same_filename (hashHex : List Nat → String) (settings : Settings)
    (bucketName : String) (f g : FileRef) (st : GcsState)
    (hname : g.name = f.name) (hcontent : g.content = f.content)
    (hfd : f.onDisk = true) (hgd : g.onDisk = true)
    (hfs : strLower f.suffix ∈ ContextCache.SUPPORTED_EXTENSIONS)
    (hgs : strLower g.suffix ∈ ContextCache.SUPPORTED_EXTENSIONS) :
    ∃ u st1 st2,
      upload_files_to_gcs hashHex [f] settings bucketName st = (Except.ok [u], st1)
      ∧ upload_files_to_gcs hashHex [g] settings bucketName st1 = (Except.ok [u], st2)
      ∧ st2.putTrace = st1.putTrace
      ∧ st1.putTrace.length ≤ st.putTrace.length + 1 := by
  have hbn : blobNameFor hashHex g = blobNameFor hashHex f := by
    simp [blobNameFor, hname, hcontent]
  by_cases hmem : blobNameFor hashHex f ∈ st.stored
  · refine ⟨gcsUriFor bucketName (blobNameFor hashHex f),
      { st with existsTrace := st.existsTrace ++ [blobNameFor hashHex f] },
      { st with existsTrace :=
          st.existsTrace ++ [blobNameFor hashHex f] ++ [blobNameFor hashHex f] },
      ?_, ?_, rfl, Nat.le_succ _⟩
    · simp [upload_files_to_gcs, uploadLoop, hfd, hfs, hmem]
    · simp [upload_files_to_gcs, uploadLoop, hgd, hgs, hbn, hmem]
  · refine ⟨gcsUriFor bucketName (blobNameFor hashHex f),
      { stored := st.stored ++ [blobNameFor hashHex f]
        existsTrace := st.existsTrace ++ [blobNameFor hashHex f]
        putTrace := st.putTrace ++ [blobNameFor hashHex f] },
      { stored := st.stored ++ [blobNameFor hashHex f]
        existsTrace := st.existsTrace ++ [blobNameFor hashHex f] ++ [blobNameFor hashHex f]
        putTrace := st.putTrace ++ [blobNameFor hashHex f] },
      ?_, ?_, rfl, by simp⟩
    · simp [upload_files_to_gcs, uploadLoop, hfd, hfs, hmem]
    · have hmem2 : blobNameFor hashHex f ∈ st.stored ++ [blobNameFor hashHex f] := by simp
      simp [upload_files_to_gcs, uploadLoop, hgd, hgs, hbn, hmem2]

/-- Witness for C1 (amended) at a concrete input: the same PDF staged
twice from an empty store yields one upload and the same URI twice. -/
theorem stage_dedup_same_filename_witness :
    ∃ u st1 st2,
      upload_files_to_gcs demoHash [demoPdfA] demoSettings "teacher-assistant-uploads"
          { stored := [], existsTrace := [], putTrace := [] } = (Except.ok [u], st1)
      ∧ upload_files_to_gcs demoHash [demoPdfA] demoSettings "teacher-assistant-uploads" st1
          = (Except.ok [u], st2)
      ∧ st2.putTrace = st1.putTrace
      ∧ st1.putTrace.length ≤
          ({ stored := [], existsTrace := [], putTrace := [] } : GcsState).putTrace.length + 1 :=
  stage_dedup_same_filename demoHash demoSettings "teacher-assistant-uploads" demoPdfA demoPdfA
    { stored := [], existsTrace := [], putTrace := [] } rfl rfl rfl rfl (by decide) (by decide)

/-- Counterexample for C4 as stated: `create_context_cache` called with a
negative TTL does not fail with any validation error — it uploads the
file (one entry in the put trace) and hands the TTL through to the
collaborator, which here succeeds while echoing the received TTL. -/
theorem cache_ttl_no_validation_cex :
    create_context_cache demoHash demoCreate [demoPdfA] demoSettings none (-3600)
        { stored := [], existsTrace := [], putTrace := [] }
      = (Except.ok "created-ttl--3600",
         { stored := ["lesson-materials/1-2/a.pdf"]
           existsTrace := ["lesson-materials/1-2/a.pdf"]
           putTrace := ["lesson-materials/1-2/a.pdf"] }) := by
  decide

/-- C4 (amended): `create_context_cache` performs no TTL validation at
all: for a TTL ≤ 0 and a valid not-yet-staged file it still performs the
upload remote call first, builds the cache-create request with the TTL
unchanged, and returns whatever the managed-context collaborator answers
on that request. -/
theorem cache_ttl_passthrough (hashHex : List Nat → String)
    (cacheCreate : CachedContentRequest → Except String String) (f : FileRef)
    (settings : Settings) (instr : Option String) (ttl : Int) (st : GcsState)
    (httl : ttl ≤ 0) (hfd : f.onDisk = true)
    (hfs : strLower f.suffix ∈ ContextCache.SUPPORTED_EXTENSIONS)
    (hnew : blobNameFor hashHex f ∉ st.stored) :
    ∃ req st1,
      buildCacheRequest hashHex [f] settings instr ttl st = (Except.ok req, st1)
      ∧ req.ttl = ttl
      ∧ st1.putTrace = st.putTrace ++ [blobNameFor hashHex f]
      ∧ create_context_cache hashHex cacheCreate [f] settings instr ttl st
          = (match cacheCreate req with
             | Except.ok n => (Except.ok n, st1)
             | Except.error m =>
               (Except.error (CtxErr.cacheCreationFailed (CtxErr.remote m)), st1)) := by
  refine ⟨{ model_name := settings.specialist_model
            system_instruction := instr.getD defaultInstruction
            contents :=
              [(gcsUriFor "teacher-assistant-uploads" (blobNameFor hashHex f),
                "application/pdf")]
            ttl := ttl
            display_name := "lesson-materials-" ++ f.stem },
          { stored := st.stored ++ [blobNameFor hashHex f]
            existsTrace := st.existsTrace ++ [blobNameFor hashHex f]
            putTrace := st.putTrace ++ [blobNameFor hashHex f] }, ?_, rfl, rfl, ?_⟩
  · simp [buildCacheRequest, upload_files_to_gcs, uploadLoop, hfd, hfs, hnew]
  · have hbuild : buildCacheRequest hashHex [f] settings instr ttl st
        = (Except.ok
            { model_name := settings.specialist_model
              system_instruction := instr.getD defaultInstruction
              contents :=
                [(gcsUriFor "teacher-assistant-uploads" (blobNameFor hashHex f),
                  "application/pdf")]
              ttl := ttl
              display_name := "lesson-materials-" ++ f.stem },
           { stored := st.stored ++ [blobNameFor hashHex f]
             existsTrace := st.existsTrace ++ [blobNameFor hashHex f]
             putTrace := st.putTrace ++ [blobNameFor hashHex f] }) := by
      simp [buildCacheRequest, upload_files_to_gcs, uploadLoop, hfd, hfs, hnew]
    rw [create_context_cache, hbuild]

/-- Witness for C4 (amended) at a concrete input: with TTL `-60` the
upload happens and the collaborator receives `-60`. -/
theorem cache_ttl_passthrough_witness :
    ∃ req st1,
      buildCacheRequest demoHash [demoPdfA] demoSettings none (-60)
          { stored := [], existsTrace := [], putTrace := [] } = (Except.ok req, st1)
      ∧ req.ttl = (-60)
      ∧ st1.putTrace = ({ stored := [], existsTrace := [], putTrace := [] } : GcsState).putTrace
          ++ [blobNameFor demoHash demoPdfA]
      ∧ create_context_cache demoHash demoCreate [demoPdfA] demoSettings none (-60)
          { stored := [], existsTrace := [], putTrace := [] }
          = (match demoCreate req with
             | Except.ok n => (Except.ok n, st1)
             | Except.error m =>
               (Except.error (CtxErr.cacheCreationFailed (CtxErr.remote m)), st1)) :=
  cache_ttl_passthrough demoHash demoCreate demoPdfA demoSettings none (-60)
    { stored := [], existsTrace := [], putTrace := [] } (by decide) rfl (by decide) (by decide)

/-- Counterexample for C5 as stated: an empty `files` list makes
`create_context_cache` fail, but the error is the generic wrapper around
the `IndexError` raised by `files[0]` when composing the display name —
the code has no dedicated empty-cache validation error. -/
theorem empty_files_index_error_cex :
    create_context_cache demoHash demoCreate [] demoSettings none 3600
        { stored := [], existsTrace := [], putTrace := [] }
      = (Except.error (CtxErr.cacheCreationFailed CtxErr.listIndexError),
         { stored := [], existsTrace := [], putTrace := [] }) := rfl

/-- C5 (amended): for every collaborator, settings, instruction, TTL and
store state, calling `create_context_cache` with an empty `files` list
fails with the generic cache-creation error wrapping the `IndexError`
from `files[0]`, leaving the store untouched; there is no dedicated
upfront emptiness check. -/
theorem empty_files_wrapped_index_error (hashHex : List Nat → String)
    (cacheCreate : CachedContentRequest → Except String String) (settings : Settings)
    (instr : Option String) (ttl : Int) (st : GcsState) :
    create_context_cache hashHex cacheCreate [] settings instr ttl st
      = (Except.error (CtxErr.cacheCreationFailed CtxErr.listIndexError), st) := rfl

/-- C6: `delete_cache` forwards deletion to the managed-context
collaborator and adds no failure of its own, so when the collaborator's
delete is (as its boundary contract states) a no-op success on missing
or expired handles, two consecutive deletes of the same handle both
return success. -/
theorem delete_cache_idempotent {σ : Type}
    (remoteDelete : σ → String → Except String Unit × σ)
    (hok : ∀ s k, (remoteDelete s k).1 = Except.ok ()) (st : σ) (handle : String) :
    (delete_cache remoteDelete st handle).1 = Except.ok ()
    ∧ (delete_cache remoteDelete (delete_cache remoteDelete st handle).2 handle).1
        = Except.ok () := by
  constructor
  · unfold delete_cache
    have h1 := hok st handle
    cases hrd : remoteDelete st handle with
    | mk r s1 =>
      rw [hrd] at h1
      simp at h1
      subst h1
      rfl
  · unfold delete_cache
    cases hrd : remoteDelete st handle with
    | mk r s1 =>
      have h1 := hok st handle
      rw [hrd] at h1
      simp at h1
      subst h1
      have h2 := hok s1 handle
      cases hrd2 : remoteDelete s1 handle with
      | mk r2 s2 =>
        rw [hrd2] at h2
        simp at h2
        subst h2
        rfl

/-- Witness for C6 at a concrete input, instantiating the collaborator
with the boundary model `mcDelete`: both consecutive deletes of the same
handle succeed. -/
theorem delete_cache_idempotent_witness :
    (delete_cache mcDelete ["cachedContents/123"] "cachedContents/123").1 = Except.ok ()
    ∧ (delete_cache mcDelete
        (delete_cache mcDelete ["cachedContents/123"] "cachedContents/123").2
        "cachedContents/123").1 = Except.ok () :=
  delete_cache_idempotent mcDelete (fun _ _ => rfl) ["cachedContents/123"] "cachedContents/123"

/-- Counterexample for C7 as stated: in the search-indexing sink an input
file with an unsupported extension is NOT rejected with an error — the
call succeeds, the file is silently skipped (it appears in no result and
causes no state change). -/
theorem datastore_skip_unsupported_cex :
    DatastoreUpload.upload_to_datastore demoCreateDoc [demoZip]
        { stored := [], existsTrace := [], putTrace := [] }
      = (Except.ok [], { stored := [], existsTrace := [], putTrace := [] })
    ∧ strLower demoZip.suffix ∉ DatastoreUpload.SUPPORTED_EXTENSIONS := by
  refine ⟨by decide, by decide⟩

/-- C7 (amended): the two sinks treat an unsupported extension
differently.  In the cache-staging sink the batch fails at the first
unsupported file with the wrapped unsupported-file-type error naming the
extension, decided before any network call for that file (neither the
exists-check trace nor the put trace grows); in the search-indexing sink
the unsupported file is silently skipped and processing continues. -/
theorem unsupported_extension_behavior :
    (∀ (hashHex : List Nat → String) (bucketName : String) (f : FileRef)
        (rest : List FileRef) (st : GcsState), f.onDisk = true →
        strLower f.suffix ∉ ContextCache.SUPPORTED_EXTENSIONS →
        uploadLoop hashHex bucketName (f :: rest) st
          = (Except.error (CtxErr.unsupportedFileType f.suffix), st))
    ∧ (∀ (hashHex : List Nat → String) (f : FileRef) (rest : List FileRef)
        (settings : Settings) (bucketName : String) (st : GcsState), f.onDisk = true →
        strLower f.suffix ∉ ContextCache.SUPPORTED_EXTENSIONS →
        upload_files_to_gcs hashHex (f :: rest) settings bucketName st
          = (Except.error (CtxErr.gcsUploadFailed (CtxErr.unsupportedFileType f.suffix)), st))
    ∧ (∀ (createDocument : DatastoreUpload.DsDocument → DatastoreUpload.DsRemoteResult)
        (f : FileRef) (rest : List FileRef) (st : GcsState),
        strLower f.suffix ∉ DatastoreUpload.SUPPORTED_EXTENSIONS →
        DatastoreUpload.upload_to_datastore createDocument (f :: rest) st
          = DatastoreUpload.upload_to_datastore createDocument rest st) := by
  refine ⟨?_, ?_, ?_⟩
  · intro hashHex bucketName f rest st hfd hfs
    simp [uploadLoop, hfd, hfs]
  · intro hashHex f rest settings bucketName st hfd hfs
    simp [upload_files_to_gcs, uploadLoop, hfd, hfs]
  · intro createDocument f rest st hfs
    cases hfd : f.onDisk with
    | false =>
      simp [DatastoreUpload.upload_to_datastore, DatastoreUpload.datastoreLoop, hfd]
    | true =>
      simp [DatastoreUpload.upload_to_datastore, DatastoreUpload.datastoreLoop, hfd, hfs]

/-- Witness for C7 (amended) at a concrete input: staging `a.zip` through
the cache sink fails with the wrapped unsupported-file-type error naming
`.zip` and leaves the store untouched. -/
theorem unsupported_extension_behavior_witness :
    upload_files_to_gcs demoHash [demoZip] demoSettings "teacher-assistant-uploads"
        { stored := [], existsTrace := [], putTrace := [] }
      = (Except.error (CtxErr.gcsUploadFailed (CtxErr.unsupportedFileType demoZip.suffix)),
         { stored := [], existsTrace := [], putTrace := [] }) :=
  unsupported_extension_behavior.2.1 demoHash demoZip [] demoSettings
    "teacher-assistant-uploads" { stored := [], existsTrace := [], putTrace := [] }
    rfl (by decide)

/-- C10: whenever `create_context_cache` reaches the managed-context
collaborator, every content reference in the request it hands over is
labelled with MIME type `application/pdf`, whatever the staged file's
actual extension was. -/
theorem cache_contents_mime_pdf (hashHex : List Nat → String) (files : List FileRef)
    (settings : Settings) (instr : Option String) (ttl : Int) (st st1 : GcsState)
    (req : CachedContentRequest)
    (hok : buildCacheRequest hashHex files settings instr ttl st = (Except.ok req, st1)) :
    ∀ p ∈ req.contents, p.2 = "application/pdf" := by
  unfold buildCacheRequest at hok
  cases hup : upload_files_to_gcs hashHex files settings "teacher-assistant-uploads" st with
  | mk r st2 =>
    rw [hup] at hok
    cases r with
    | error e => simp at hok
    | ok uris =>
      cases files with
      | nil => simp at hok
      | cons f0 fs =>
        simp only [Prod.mk.injEq, Except.ok.injEq] at hok
        rcases hok with ⟨hreq, hst⟩
        subst hreq
        intro p hp
        simp only [List.mem_map] at hp
        rcases hp with ⟨u, hu, hpu⟩
        rw [← hpu]

set_option maxRecDepth 8000 in
/-- Witness for C10 at a concrete input: staging a `.txt` file still
labels its content reference `application/pdf`. -/
theorem cache_contents_mime_pdf_witness :
    (("gs://teacher-assistant-uploads/lesson-materials/7/notes.txt",
      "application/pdf") : String × String).2 = "application/pdf" :=
  cache_contents_mime_pdf demoHash [demoTxt] demoSettings none 3600
    { stored := [], existsTrace := [], putTrace := [] }
    { stored := ["lesson-materials/7/notes.txt"]
      existsTrace := ["lesson-materials/7/notes.txt"]
      putTrace := ["lesson-materials/7/notes.txt"] }
    { model_name := "gemini-2.0-flash-exp"
      system_instruction := defaultInstruction
      contents := [("gs://teacher-assistant-uploads/lesson-materials/7/notes.txt",
                    "application/pdf")]
      ttl := 3600
      display_name := "lesson-materials-notes" }
    (by decide)
    ("gs://teacher-assistant-uploads/lesson-materials/7/notes.txt", "application/pdf")
    (by decide)
